import Mathlib

/-!
Shallow embedding of the polling device adapters of this repository
(Modbus cover / fan / light, HtREST climate) and proofs about their
update, projection and write behaviour.

Python floats are modelled as rationals, exceptions as explicit outcome
constructors, and each device interaction (hub call, HTTP request) as an
input parameter describing its result, so that one poll cycle or one
service call becomes a pure state-transition function.
-/

/-- Python exception kinds that the modelled code paths can raise. -/
inductive PyErr
  | typeError
deriving DecidableEq

/-- Outcome of a synchronous hub read of holding registers with count 3
(ModbusCover.update): the call can raise ConnectionException, return a
ModbusException / ExceptionResponse object, or return three registers. -/
inductive CoverReadResult
  | conn
  | exc
  | ok (r0 r1 r2 : Nat)
deriving DecidableEq

/-- Outcome of a synchronous hub read of one holding register. -/
inductive RegReadResult
  | conn
  | exc
  | ok (r : Nat)
deriving DecidableEq

/-- Outcome of a synchronous hub read of one coil. -/
inductive CoilReadResult
  | conn
  | exc
  | ok (bit : Bool)
deriving DecidableEq

/-- Outcome of a synchronous hub write (write_registers or write_coil):
either the call raises ConnectionException or it succeeds. -/
inductive WriteOutcome
  | conn
  | ok
deriving DecidableEq

/-- Outcome of an awaited async hub register read (ModbusLight): the async
hub signals failure by returning None or an exception object, which the
source folds into one check, so the model keeps one failure constructor. -/
inductive LightReadResult
  | bad
  | ok (r : Nat)
deriving DecidableEq

/-- Outcome of an awaited async hub coil read (ModbusLight). -/
inductive LightCoilResult
  | bad
  | ok (bit : Bool)
deriving DecidableEq

/-- BinaryPayloadDecoder.fromRegisters with Endian.Little followed by
decode_16bit_uint: the decoder packs the register with struct format <H
and unpacks it with the same format, the identity on a 16-bit value. -/
def decode_16bit_uint (r : Nat) : Nat := r % 65536

/-- BinaryPayloadDecoder.fromRegisters with Endian.Little followed by
decode_16bit_int: pack <H then unpack <h, two's-complement reading of the
16-bit register value. -/
def decode_16bit_int (r : Nat) : Int :=
  let u := r % 65536
  if u < 32768 then (u : Int) else (u : Int) - 65536

/-- BinaryPayloadBuilder(byteorder=Endian.Little).add_16bit_uint calls
followed by to_registers: pack <H then unpack <H per value, the identity
register list for 16-bit values. -/
def to_registers (vals : List Nat) : List Nat := vals.map (· % 65536)

/-- Register image of add_16bit_int under Endian.Little: pack <h then
unpack <H, the two's-complement image of the signed value. -/
def int16_to_register (v : Int) : Nat := ((v % 65536 + 65536) % 65536).toNat

/-- Python int() applied to the scaled value: the scaling functions clamp
to a nonnegative range, where truncation toward zero is the floor. -/
def pyInt (q : ℚ) : Nat := (⌊q⌋).toNat

/-- scale_to_255 from modbus/cover.py: max(0, min(255, value * 255.0 / 100.0)),
with the float arithmetic modelled over the rationals. -/
def scale_to_255 (value : ℚ) : ℚ := max 0 (min 255 (value * 255 / 100))

/-- scale_to_100 from modbus/cover.py: max(0, min(100, value * 100.0 / 255.0)). -/
def scale_to_100 (value : ℚ) : ℚ := max 0 (min 100 (value * 100 / 255))

/-- scale_to_255 as called on a Python value that may be None: the body
evaluates value * 255.0, which raises TypeError when value is None. -/
def scale_to_255_py : Option ℚ → Except PyErr ℚ
  | none => .error .typeError
  | some v => .ok (scale_to_255 v)

namespace ModbusCover

/-- OSCAT status byte for an opening cover. -/
def STATUS_OPENING : Nat := 121

/-- OSCAT status byte for a closing cover. -/
def STATUS_CLOSING : Nat := 122

/-- OSCAT status byte for a cover in standby. -/
def STATUS_STANDBY : Nat := 131

/-- OSCAT status byte of the open command. -/
def STATUS_OPEN : Nat := 134

/-- OSCAT status byte of the close command. -/
def STATUS_CLOSE : Nat := 135

/-- OSCAT status byte of the set-position command. -/
def STATUS_SET : Nat := 136

/-- Mutable fields of a ModbusCover entity that the claims mention:
status, cached cover position, cached tilt position (all None before the
first successful poll) and the availability flag (initially True). -/
structure State where
  status : Option Nat
  cover_position : Option ℚ
  cover_tilt_position : Option ℚ
  available : Bool
deriving DecidableEq

/-- Field values ModbusCover.__init__ assigns. -/
def initial : State := ⟨none, none, none, true⟩

/-- Property is_opening: None while the status is unknown, else whether
the status equals STATUS_OPENING. -/
def is_opening (s : State) : Option Bool :=
  match s.status with
  | none => none
  | some st => some (decide (st = STATUS_OPENING))

/-- Property is_closing: None while the status is unknown, else whether
the status equals STATUS_CLOSING. -/
def is_closing (s : State) : Option Bool :=
  match s.status with
  | none => none
  | some st => some (decide (st = STATUS_CLOSING))

/-- Property is_closed: None while position or tilt is unknown, else
whether the position is 0 and the tilt is below 2. -/
def is_closed (s : State) : Option Bool :=
  match s.cover_position, s.cover_tilt_position with
  | some p, some t => some (decide (p = 0) && decide (t < 2))
  | _, _ => none

/-- ModbusCover.update: a ConnectionException or an exception response
marks the entity unavailable and returns; a successful read decodes three
16-bit values (Endian.Little), masks each with 0xFF, scales position and
tilt to 0..100 and marks the entity available. -/
def update (s : State) : CoverReadResult → State
  | .conn => { s with available := false }
  | .exc => { s with available := false }
  | .ok r0 r1 r2 =>
    { status := some (decode_16bit_uint r0 &&& 255)
      cover_position := some (scale_to_100 ((decode_16bit_uint r1 &&& 255 : Nat) : ℚ))
      cover_tilt_position := some (scale_to_100 ((decode_16bit_uint r2 &&& 255 : Nat) : ℚ))
      available := true }

/-- ModbusCover._write_registers: a ConnectionException marks the entity
unavailable without raising to the caller; a successful write marks it
available. No projected field is touched. -/
def write_registers (s : State) : WriteOutcome → State
  | .conn => { s with available := false }
  | .ok => { s with available := true }

/-- ModbusCover._set_position_and_angle: scales both arguments to 0..255
(raising TypeError out of scale_to_255 when an argument is None), truncates
with int(), packs STATUS_SET, position and angle into one register list and
issues a single _write_registers call. The second component collects the
register lists of the writes issued before any exception. -/
def set_position_and_angle (s : State) (position angle : Option ℚ)
    (w : WriteOutcome) : Except PyErr State × List (List Nat) :=
  match scale_to_255_py position with
  | .error e => (.error e, [])
  | .ok p =>
    match scale_to_255_py angle with
    | .error e => (.error e, [])
    | .ok a =>
      (.ok (write_registers s w), [to_registers [STATUS_SET, pyInt p, pyInt a]])

/-- ModbusCover.set_cover_position with ATTR_POSITION present: forwards the
requested position together with the cached tilt position. -/
def set_cover_position (s : State) (position : ℚ) (w : WriteOutcome) :
    Except PyErr State × List (List Nat) :=
  set_position_and_angle s (some position) s.cover_tilt_position w

/-- ModbusCover.set_cover_tilt_position with ATTR_TILT_POSITION present:
forwards the cached position together with the requested tilt. -/
def set_cover_tilt_position (s : State) (tilt : ℚ) (w : WriteOutcome) :
    Except PyErr State × List (List Nat) :=
  set_position_and_angle s s.cover_position (some tilt) w

end ModbusCover

namespace ModbusFan

/-- Speed name constant SPEED_LOW. -/
def SPEED_LOW : String := "low"

/-- Speed name constant SPEED_MEDIUM. -/
def SPEED_MEDIUM : String := "medium"

/-- Speed name constant SPEED_HIGH. -/
def SPEED_HIGH : String := "high"

/-- State name constant STATE_ON. -/
def STATE_ON : String := "on"

/-- State name constant STATE_OFF. -/
def STATE_OFF : String := "off"

/-- Lookup in the SPEED_TO_VALUE dict, None when the key is absent. -/
def SPEED_TO_VALUE (speed : String) : Option Int :=
  if speed = SPEED_LOW then some 0
  else if speed = SPEED_MEDIUM then some 1
  else if speed = SPEED_HIGH then some 2
  else none

/-- Lookup in the VALUE_TO_SPEED dict, None when the key is absent. -/
def VALUE_TO_SPEED (value : Int) : Option String :=
  if value = 0 then some SPEED_LOW
  else if value = 1 then some SPEED_MEDIUM
  else if value = 2 then some SPEED_HIGH
  else none

/-- Configuration of a ModbusFan entity: the optional speed register
address; supported_features has SUPPORT_SET_SPEED exactly when it is set. -/
structure Config where
  speed_register : Option Nat
deriving DecidableEq

/-- Mutable fields of a ModbusFan entity that the claims mention. -/
structure State where
  state : String
  speed : Option String
  available : Bool
deriving DecidableEq

/-- Field values ModbusFan.__init__ assigns. -/
def initial : State := ⟨STATE_OFF, none, true⟩

/-- Writes a ModbusFan entity issues to the hub (attempted calls, recorded
whether or not the call then raises). -/
inductive Write
  | coil (value : Bool)
  | speed_reg (regs : List Nat)
deriving DecidableEq

/-- Tail of ModbusFan.update after the optional speed-register read
produced the local speed value: read the state coil; on failure mark
unavailable and return; on success set the on/off state, translate the
speed through VALUE_TO_SPEED when one was read, and mark available. -/
def update_after_speed (s : State) (speed : Option Int) :
    CoilReadResult → State
  | .conn => { s with available := false }
  | .exc => { s with available := false }
  | .ok b =>
    let s1 := { s with state := if b then STATE_ON else STATE_OFF }
    let s2 :=
      match speed with
      | none => s1
      | some v => { s1 with speed := VALUE_TO_SPEED v }
    { s2 with available := true }

/-- ModbusFan.update: when a speed register is configured, first read it
(ConnectionException or an exception response marks the entity unavailable
and ends the cycle) and decode the signed 16-bit speed into a local; then
read the state coil and finish via update_after_speed. -/
def update (cfg : Config) (s : State) (speedRead : RegReadResult)
    (coilRead : CoilReadResult) : State :=
  match cfg.speed_register with
  | none => update_after_speed s none coilRead
  | some _ =>
    match speedRead with
    | .conn => { s with available := false }
    | .exc => { s with available := false }
    | .ok r => update_after_speed s (some (decode_16bit_int r)) coilRead

/-- ModbusFan._write_coil: issues the coil write; a ConnectionException
marks the entity unavailable and returns, success marks it available. -/
def write_coil (s : State) (value : Bool) : WriteOutcome → State × List Write
  | .conn => ({ s with available := false }, [.coil value])
  | .ok => ({ s with available := true }, [.coil value])

/-- ModbusFan.set_speed: when the speed name is in SPEED_TO_VALUE, pack the
signed 16-bit value (Endian.Little) and write it to the speed register; a
ConnectionException marks the entity unavailable. A successful write does
not touch the availability flag, and an unknown speed name does nothing. -/
def set_speed (s : State) (speed : String) (w : WriteOutcome) :
    State × List Write :=
  match SPEED_TO_VALUE speed with
  | none => (s, [])
  | some v =>
    match w with
    | .conn => ({ s with available := false }, [.speed_reg [int16_to_register v]])
    | .ok => (s, [.speed_reg [int16_to_register v]])

/-- ModbusFan.turn_on: with a speed argument, first set_speed; if the
entity is not available afterwards, return without touching the coil;
otherwise (and always when no speed is given) write True to the state
coil. -/
def turn_on (s : State) (speed : Option String) (speedW coilW : WriteOutcome) :
    State × List Write :=
  match speed with
  | none => write_coil s true coilW
  | some sp =>
    let r1 := set_speed s sp speedW
    if r1.1.available = false then r1
    else
      let r2 := write_coil r1.1 true coilW
      (r2.1, r1.2 ++ r2.2)

/-- ModbusFan.turn_off: write False to the state coil. -/
def turn_off (s : State) (coilW : WriteOutcome) : State × List Write :=
  write_coil s false coilW

end ModbusFan

namespace ModbusLight

/-- Configuration of a ModbusLight entity: the optional brightness register
address; supported_features has SUPPORT_BRIGHTNESS exactly when it is set. -/
structure Config where
  brightness_register : Option Nat
deriving DecidableEq

/-- Mutable fields of a ModbusLight entity that the claims mention. -/
structure State where
  is_on : Option Bool
  brightness : Option Nat
  available : Bool
deriving DecidableEq

/-- Field values ModbusLight.__init__ assigns. -/
def initial : State := ⟨none, none, true⟩

/-- Tail of ModbusLight.async_update: read the state coil from the async
hub; a None result or exception object marks the entity unavailable and
returns; a bit sets is_on and marks the entity available. -/
def update_coil (s : State) : LightCoilResult → State
  | .bad => { s with available := false }
  | .ok b => { s with is_on := some b, available := true }

/-- ModbusLight.async_update: when a brightness register is configured,
read it first; a None result or exception object marks the entity
unavailable and returns, and a successful read stores the decoded 16-bit
brightness immediately, before the coil read runs. Then the state coil is
read via update_coil. -/
def async_update (cfg : Config) (s : State) (bRead : LightReadResult)
    (coilRead : LightCoilResult) : State :=
  match cfg.brightness_register with
  | none => update_coil s coilRead
  | some _ =>
    match bRead with
    | .bad => { s with available := false }
    | .ok r => update_coil { s with brightness := some (decode_16bit_uint r) } coilRead

/-- ModbusLight._write_coil: awaits the async hub coil write, whose failure
surfaces as an ignored None return value, and then unconditionally marks
the entity available; the source has no error handling here. -/
def write_coil (s : State) (_value : Bool) (_w : WriteOutcome) : State :=
  { s with available := true }

end ModbusLight

namespace HtRestThermostat

/-- Values of the current_hvac_action field the source assigns:
CURRENT_HVAC_OFF, CURRENT_HVAC_HEAT, CURRENT_HVAC_IDLE. -/
inductive HvacAction
  | off
  | heat
  | idle
deriving DecidableEq

/-- Fields async_update extracts from the parsed JSON document after the
attribute assignment: HKR Soll_Raum as float, Stoerung and Hauptschalter
as bool, Verdichter_Status and Verdichteranforderung as int. -/
structure Fields where
  hkr_soll_raum : ℚ
  stoerung : Bool
  hauptschalter : Bool
  verdichter_status : Int
  verdichteranforderung : Int
deriving DecidableEq

/-- Outcome of the HTTP GET in HtRestThermostat.async_update.
transport_error covers asyncio.TimeoutError, aiohttp client errors,
socket.gaierror and a raise_for_status failure; bad_content_type a
response without application/json; json_error a response whose json()
call raises (a ValueError, caught before the attributes are assigned);
parse_failure a parsed document (its slugified items carried along,
already assigned to the attributes) with a required field missing or
mistyped; parsed a fully extracted document. -/
inductive UpdateResult
  | transport_error
  | bad_content_type
  | json_error
  | parse_failure (attrs : List (String × String))
  | parsed (attrs : List (String × String)) (fields : Fields)

/-- Mutable fields of an HtRestThermostat entity that the claims mention. -/
structure State where
  target_temp : Option ℚ
  current_hvac_action : Option HvacAction
  attributes : Option (List (String × String))
  available : Bool
deriving DecidableEq

/-- Field values HtRestThermostat.__init__ assigns. -/
def initial : State := ⟨none, none, none, true⟩

/-- Projection of the extracted fields onto the hvac action, following the
if/elif/else chain of async_update: Stoerung or a cleared Hauptschalter
gives OFF, Verdichter_Status 9 with Verdichteranforderung 2 gives HEAT,
and everything else falls through to IDLE. -/
def project_hvac_action (f : Fields) : HvacAction :=
  if f.stoerung || !f.hauptschalter then .off
  else if f.verdichter_status = 9 && f.verdichteranforderung = 2 then .heat
  else .idle

/-- HtRestThermostat.async_update: transport errors, a wrong content type
and a json() failure mark the entity unavailable and return; a field
extraction failure does so too but only after the attributes were already
assigned from the parsed document; a fully parsed document sets the
attributes, the target temperature and the hvac action and marks the
entity available. -/
def async_update (s : State) : UpdateResult → State
  | .transport_error => { s with available := false }
  | .bad_content_type => { s with available := false }
  | .json_error => { s with available := false }
  | .parse_failure attrs => { s with attributes := some attrs, available := false }
  | .parsed attrs f =>
    { s with
      attributes := some attrs
      target_temp := some f.hkr_soll_raum
      current_hvac_action := some (project_hvac_action f)
      available := true }

/-- Outcome of the HTTP PUT in HtRestThermostat.async_set_temperature:
timeout, client error (including raise_for_status), wrong content type,
invalid JSON body, or a response whose value field echoes the confirmed
target temperature. -/
inductive SetTempResult
  | timeout
  | client_error
  | bad_content_type
  | invalid_json
  | echoed (value : ℚ)
deriving DecidableEq

/-- HtRestThermostat.async_set_temperature: with no temperature argument
the call returns at once; every failure path logs and returns without
touching any field (in particular the availability flag is left as it
was); on success the target temperature is taken from the value echoed in
the device response, not from the requested temperature, and the entity is
marked available. -/
def async_set_temperature (s : State) (temperature : Option ℚ) :
    SetTempResult → State :=
  fun r =>
    match temperature with
    | none => s
    | some _ =>
      match r with
      | .timeout => s
      | .client_error => s
      | .bad_content_type => s
      | .invalid_json => s
      | .echoed v => { s with target_temp := some v, available := true }

end HtRestThermostat

/-- Helper: for inputs within 0..100 neither clamp of scale_to_255 is
active, leaving the bare linear rescale. -/
theorem scale_to_255_unclamped (v : ℚ) (h0 : 0 ≤ v) (h1 : v ≤ 100) :
    scale_to_255 v = v * 255 / 100 := by
  unfold scale_to_255
  rw [min_eq_right, max_eq_right]
  · positivity
  · rw [div_le_iff₀ (by norm_num)]
    nlinarith

/-- Helper: for inputs within 0..255 neither clamp of scale_to_100 is
active, leaving the bare linear rescale. -/
theorem scale_to_100_unclamped (v : ℚ) (h0 : 0 ≤ v) (h1 : v ≤ 255) :
    scale_to_100 v = v * 100 / 255 := by
  unfold scale_to_100
  rw [min_eq_right, max_eq_right]
  · positivity
  · rw [div_le_iff₀ (by norm_num)]
    nlinarith

/-- Helper: scale_to_100 maps the raw value 0 to 0 percent. -/
theorem scale_to_100_zero : scale_to_100 0 = 0 := by
  rw [scale_to_100_unclamped 0 le_rfl (by norm_num)]
  norm_num

/-- Helper: scale_to_100 maps the raw value 255 to 100 percent. -/
theorem scale_to_100_full : scale_to_100 255 = 100 := by
  rw [scale_to_100_unclamped 255 (by norm_num) le_rfl]
  norm_num

/-- C1, counterexample to the claim as stated: a ModbusLight poll cycle
whose brightness-register read succeeds with value 42 and whose following
coil read fails ends with the availability flag false, yet the brightness
field was changed from its pre-cycle value 0 to the freshly decoded 42. -/
theorem c1_light_partial_update_counterexample :
    (ModbusLight.async_update ⟨some 1⟩ ⟨some true, some 0, true⟩ (.ok 42) .bad).available
      = false ∧
    (ModbusLight.async_update ⟨some 1⟩ ⟨some true, some 0, true⟩ (.ok 42) .bad).brightness
      = some 42 ∧
    (some 42 : Option Nat) ≠ some 0 := by
  refine ⟨rfl, rfl, by decide⟩

/-- C1 (amended): a connection failure or an exception/error response on a
poll cycle sets the availability flag to false, and leaves every projected
field unchanged for ModbusCover.update, ModbusFan.update and the
transport-level failures of HtRestThermostat.async_update, as well as for
ModbusLight.async_update when the failing read is the first of the cycle;
but when the light's brightness read succeeds and the following coil read
fails, the freshly decoded brightness is kept although the cycle still ends
unavailable. -/
theorem c1_transport_failure_handling :
    (∀ s, ModbusCover.update s .conn = { s with available := false }) ∧
    (∀ s, ModbusCover.update s .exc = { s with available := false }) ∧
    (∀ a s c, ModbusFan.update ⟨some a⟩ s .conn c = { s with available := false }) ∧
    (∀ a s c, ModbusFan.update ⟨some a⟩ s .exc c = { s with available := false }) ∧
    (∀ a s r, ModbusFan.update ⟨some a⟩ s (.ok r) .conn = { s with available := false }) ∧
    (∀ a s r, ModbusFan.update ⟨some a⟩ s (.ok r) .exc = { s with available := false }) ∧
    (∀ s sr, ModbusFan.update ⟨none⟩ s sr .conn = { s with available := false }) ∧
    (∀ s sr, ModbusFan.update ⟨none⟩ s sr .exc = { s with available := false }) ∧
    (∀ a s c, ModbusLight.async_update ⟨some a⟩ s .bad c = { s with available := false }) ∧
    (∀ s br, ModbusLight.async_update ⟨none⟩ s br .bad = { s with available := false }) ∧
    (∀ a s r, ModbusLight.async_update ⟨some a⟩ s (.ok r) .bad =
      { s with brightness := some (decode_16bit_uint r), available := false }) ∧
    (∀ s, HtRestThermostat.async_update s .transport_error = { s with available := false }) ∧
    (∀ s, HtRestThermostat.async_update s .bad_content_type = { s with available := false }) := by
  refine ⟨?_, ?_, ?_, ?_, ?_, ?_, ?_, ?_, ?_, ?_, ?_, ?_, ?_⟩ <;> intros <;> rfl

/-- C2, counterexample to the claim as stated: a ModbusLight poll cycle
that fails at the coil read after a successful brightness read ends with
availability false yet merges the partial result, replacing the cached
brightness 255 by the freshly read 7. -/
theorem c2_failed_cycle_merge_counterexample :
    (ModbusLight.async_update ⟨some 2⟩ ⟨some false, some 255, true⟩ (.ok 7) .bad).available
      = false ∧
    (ModbusLight.async_update ⟨some 2⟩ ⟨some false, some 255, true⟩ (.ok 7) .bad).brightness
      = some 7 ∧
    (some 7 : Option Nat) ≠ some 255 := by
  refine ⟨rfl, rfl, by decide⟩

/-- C2 (amended): a poll cycle that ends with availability false leaves the
projected state untouched for ModbusCover.update and ModbusFan.update; for
ModbusLight.async_update it leaves is_on untouched and either leaves the
brightness untouched or, when the brightness read had succeeded before the
coil read failed, stores that decoded brightness; for
HtRestThermostat.async_update it leaves target temperature and hvac action
untouched and either leaves the attributes untouched or, when field
extraction failed after a successful JSON parse, stores the parsed
attributes. -/
theorem c2_failed_cycle_updates :
    (∀ s r, (ModbusCover.update s r).available = false →
      ModbusCover.update s r = { s with available := false }) ∧
    (∀ cfg s sr cr, (ModbusFan.update cfg s sr cr).available = false →
      ModbusFan.update cfg s sr cr = { s with available := false }) ∧
    (∀ cfg s br cr, (ModbusLight.async_update cfg s br cr).available = false →
      (ModbusLight.async_update cfg s br cr).is_on = s.is_on ∧
      ((ModbusLight.async_update cfg s br cr).brightness = s.brightness ∨
        ∃ r, br = .ok r ∧
          (ModbusLight.async_update cfg s br cr).brightness = some (decode_16bit_uint r))) ∧
    (∀ s r, (HtRestThermostat.async_update s r).available = false →
      (HtRestThermostat.async_update s r).target_temp = s.target_temp ∧
      (HtRestThermostat.async_update s r).current_hvac_action = s.current_hvac_action ∧
      ((HtRestThermostat.async_update s r).attributes = s.attributes ∨
        ∃ attrs, r = .parse_failure attrs ∧
          (HtRestThermostat.async_update s r).attributes = some attrs)) := by
  refine ⟨?_, ?_, ?_, ?_⟩
  · intro s r h
    cases r <;> simp_all [ModbusCover.update]
  · intro cfg s sr cr h
    obtain ⟨reg⟩ := cfg
    cases reg <;> cases sr <;> cases cr <;>
      simp_all [ModbusFan.update, ModbusFan.update_after_speed]
  · intro cfg s br cr h
    obtain ⟨reg⟩ := cfg
    cases reg <;> cases br <;> cases cr <;>
      simp_all [ModbusLight.async_update, ModbusLight.update_coil]
  · intro s r h
    cases r <;> simp_all [HtRestThermostat.async_update]

/-- C2, witness: the amended statement applied to a concrete failed cover
cycle, a connection failure from the initial state. -/
theorem c2_failed_cycle_updates_witness :
    ModbusCover.update ModbusCover.initial .conn =
      { ModbusCover.initial with available := false } :=
  c2_failed_cycle_updates.1 ModbusCover.initial .conn rfl


/-- Helper: scale_to_255 maps 50 to 127.5, which int() truncates to 127. -/
theorem pyInt_scale_50 : pyInt (scale_to_255 50) = 127 := by
  rw [scale_to_255_unclamped 50 (by norm_num) (by norm_num)]
  norm_num [pyInt]
  decide

/-- Helper: scale_to_255 maps 75 to 191.25, which int() truncates to 191. -/
theorem pyInt_scale_75 : pyInt (scale_to_255 75) = 191 := by
  rw [scale_to_255_unclamped 75 (by norm_num) (by norm_num)]
  norm_num [pyInt]
  decide

/-- C3, counterexample to the claim as stated: writing position 50 with
tilt 75 packs the registers [136, 127, 191], not [136, 128, 191], because
int(scale_to_255(50)) truncates 127.5 to 127 rather than rounding. -/
theorem c3_pack_counterexample :
    (ModbusCover.set_position_and_angle ModbusCover.initial (some 50) (some 75) .ok).2
      = [[136, 127, 191]] ∧
    ([[136, 127, 191]] : List (List Nat)) ≠ [[136, 128, 191]] := by
  constructor
  · show [to_registers [ModbusCover.STATUS_SET,
      pyInt (scale_to_255 50), pyInt (scale_to_255 75)]] = _
    rw [pyInt_scale_50, pyInt_scale_75]
    rfl
  · decide

/-- C3 (amended): writing position 50 together with tilt 75 on the Modbus
cover issues exactly one combined register write, whose packed values are
[136, 127, 191]: scale_to_255 maps 50 to 127.5 and 75 to 191.25, and int()
truncates these to 127 and 191. -/
theorem c3_combined_single_write (s : ModbusCover.State) (w : WriteOutcome) :
    (ModbusCover.set_position_and_angle s (some 50) (some 75) w).2
      = [[136, 127, 191]] ∧
    ((ModbusCover.set_position_and_angle s (some 50) (some 75) w).2).length = 1 ∧
    scale_to_255 50 = 255 / 2 ∧
    pyInt (scale_to_255 50) = 127 ∧
    pyInt (scale_to_255 75) = 191 := by
  refine ⟨?_, ?_, ?_, pyInt_scale_50, pyInt_scale_75⟩
  · show [to_registers [ModbusCover.STATUS_SET,
      pyInt (scale_to_255 50), pyInt (scale_to_255 75)]] = _
    rw [pyInt_scale_50, pyInt_scale_75]
    rfl
  · rfl
  · rw [scale_to_255_unclamped 50 (by norm_num) (by norm_num)]
    norm_num

/-- C4, counterexample to the claim as stated: after two connection
failures, a successful read of [135, 0, 0] yields status 135, which is
STATUS_CLOSE and not STATUS_CLOSING (122), so is_closing is false rather
than true. -/
theorem c4_close_not_closing_counterexample :
    (ModbusCover.update (ModbusCover.update
        (ModbusCover.update ModbusCover.initial .conn) .conn) (.ok 135 0 0)).status
      = some 135 ∧
    ModbusCover.is_closing (ModbusCover.update (ModbusCover.update
        (ModbusCover.update ModbusCover.initial .conn) .conn) (.ok 135 0 0))
      = some false ∧
    ModbusCover.STATUS_CLOSE = 135 ∧
    ModbusCover.STATUS_CLOSING = 122 := by
  refine ⟨rfl, rfl, rfl, rfl⟩

/-- C4 (amended): from any state, two connection-failure cycles followed by
a successful read of [135, 0, 0] end with availability true and the status
field equal to STATUS_CLOSE (135), for which is_closing is false; each
failed cycle changes nothing but the availability flag, so no partially
updated state is ever observable between cycles. -/
theorem c4_two_failures_then_success (s : ModbusCover.State) :
    ModbusCover.update s .conn = { s with available := false } ∧
    ModbusCover.update (ModbusCover.update s .conn) .conn
      = { s with available := false } ∧
    (ModbusCover.update (ModbusCover.update
        (ModbusCover.update s .conn) .conn) (.ok 135 0 0)).available = true ∧
    (ModbusCover.update (ModbusCover.update
        (ModbusCover.update s .conn) .conn) (.ok 135 0 0)).status
      = some ModbusCover.STATUS_CLOSE ∧
    ModbusCover.is_closing (ModbusCover.update (ModbusCover.update
        (ModbusCover.update s .conn) .conn) (.ok 135 0 0)) = some false := by
  refine ⟨rfl, rfl, rfl, rfl, rfl⟩

/-- C5, counterexample to the claim as stated: a ModbusLight coil write
that fails leaves the availability flag true (the source has no error
handling around the async hub call), and a failed
HtRestThermostat.async_set_temperature returns without setting the
availability flag to false either. -/
theorem c5_failed_write_counterexample :
    (ModbusLight.write_coil ⟨some true, some 10, true⟩ false .conn).available = true ∧
    (HtRestThermostat.async_set_temperature ⟨none, none, none, true⟩ (some 21)
      .timeout).available = true ∧
    true ≠ false := by
  refine ⟨rfl, rfl, by decide⟩

/-- C5 (amended): ModbusCover._write_registers, ModbusFan._write_coil and
ModbusFan.set_speed absorb a connection failure by setting availability to
false without raising; ModbusLight._write_coil does no error handling and
marks the entity available unconditionally; a failed
HtRestThermostat.async_set_temperature returns with every field, the
availability flag included, unchanged; and a successful
async_set_temperature updates the target temperature from the value echoed
in the device response, which takes precedence over the requested value. -/
theorem c5_write_paths :
    (∀ s, ModbusCover.write_registers s .conn = { s with available := false }) ∧
    (∀ s, ModbusCover.write_registers s .ok = { s with available := true }) ∧
    (∀ s v, (ModbusFan.write_coil s v .conn).1 = { s with available := false }) ∧
    (∀ s v, (ModbusFan.write_coil s v .ok).1 = { s with available := true }) ∧
    (∀ s sp v, ModbusFan.SPEED_TO_VALUE sp = some v →
      (ModbusFan.set_speed s sp .conn).1 = { s with available := false }) ∧
    (∀ s v w, ModbusLight.write_coil s v w = { s with available := true }) ∧
    (∀ s t, HtRestThermostat.async_set_temperature s (some t) .timeout = s) ∧
    (∀ s t, HtRestThermostat.async_set_temperature s (some t) .client_error = s) ∧
    (∀ s t, HtRestThermostat.async_set_temperature s (some t) .bad_content_type = s) ∧
    (∀ s t, HtRestThermostat.async_set_temperature s (some t) .invalid_json = s) ∧
    (∀ s t v, HtRestThermostat.async_set_temperature s (some t) (.echoed v) =
      { s with target_temp := some v, available := true }) := by
  refine ⟨fun s => rfl, fun s => rfl, fun s v => rfl, fun s v => rfl, ?_,
    fun s v w => rfl, fun s t => rfl, fun s t => rfl, fun s t => rfl,
    fun s t => rfl, fun s t v => rfl⟩
  intro s sp v h
  simp [ModbusFan.set_speed, h]

/-- C5, witness: the amended statement's set_speed conjunct applied to a
concrete failed speed-register write for the speed name low. -/
theorem c5_write_paths_witness :
    (ModbusFan.set_speed ModbusFan.initial "low" .conn).1 =
      { ModbusFan.initial with available := false } :=
  c5_write_paths.2.2.2.2.1 ModbusFan.initial "low" 0 rfl

/-- C6: a successful cover update with registers [131, 0, 0] decodes to
status STATUS_STANDBY, position 0 percent, tilt 0 percent and is_closed
true, and one with [134, 255, 255] decodes to position and tilt 100
percent. -/
theorem c6_concrete_decode (s : ModbusCover.State) :
    ModbusCover.update s (.ok 131 0 0) =
      ⟨some ModbusCover.STATUS_STANDBY, some 0, some 0, true⟩ ∧
    ModbusCover.is_closed (ModbusCover.update s (.ok 131 0 0)) = some true ∧
    (ModbusCover.update s (.ok 134 255 255)).cover_position = some 100 ∧
    (ModbusCover.update s (.ok 134 255 255)).cover_tilt_position = some 100 := by
  have h0 : scale_to_100 ((decode_16bit_uint 0 &&& 255 : Nat) : ℚ) = 0 := by
    show scale_to_100 ((0 : Nat) : ℚ) = 0
    rw [show ((0 : Nat) : ℚ) = 0 by norm_num]
    exact scale_to_100_zero
  have h255 : scale_to_100 ((decode_16bit_uint 255 &&& 255 : Nat) : ℚ) = 100 := by
    show scale_to_100 ((255 : Nat) : ℚ) = 100
    rw [show ((255 : Nat) : ℚ) = 255 by norm_num]
    exact scale_to_100_full
  refine ⟨?_, ?_, ?_, ?_⟩
  · show ModbusCover.State.mk _ _ _ _ = _
    rw [h0]
    rfl
  · show some (decide (scale_to_100 ((decode_16bit_uint 0 &&& 255 : Nat) : ℚ) = 0) &&
      decide (scale_to_100 ((decode_16bit_uint 0 &&& 255 : Nat) : ℚ) < 2)) = some true
    rw [h0]
    norm_num
  · show some (scale_to_100 ((decode_16bit_uint 255 &&& 255 : Nat) : ℚ)) = some 100
    rw [h255]
  · show some (scale_to_100 ((decode_16bit_uint 255 &&& 255 : Nat) : ℚ)) = some 100
    rw [h255]

/-- C7: both scaling functions are monotone non-decreasing over all
rational inputs, and they are mutual inverses within one unit on their
respective ranges (the round trip is in fact exact, so the deviation is 0,
well within 1). -/
theorem c7_scale_monotone_roundtrip :
    (∀ x y : ℚ, x ≤ y → scale_to_255 x ≤ scale_to_255 y) ∧
    (∀ x y : ℚ, x ≤ y → scale_to_100 x ≤ scale_to_100 y) ∧
    (∀ x : ℚ, 0 ≤ x → x ≤ 100 → |scale_to_100 (scale_to_255 x) - x| ≤ 1) ∧
    (∀ x : ℚ, 0 ≤ x → x ≤ 255 → |scale_to_255 (scale_to_100 x) - x| ≤ 1) := by
  refine ⟨?_, ?_, ?_, ?_⟩
  · intro x y h
    unfold scale_to_255
    have : x * 255 / 100 ≤ y * 255 / 100 := by
      apply div_le_div_of_nonneg_right _ (by norm_num)
      nlinarith
    exact max_le_max le_rfl (min_le_min le_rfl this)
  · intro x y h
    unfold scale_to_100
    have : x * 100 / 255 ≤ y * 100 / 255 := by
      apply div_le_div_of_nonneg_right _ (by norm_num)
      nlinarith
    exact max_le_max le_rfl (min_le_min le_rfl this)
  · intro x h0 h1
    rw [scale_to_255_unclamped x h0 h1,
      scale_to_100_unclamped _ (by positivity)
        (by rw [div_le_iff₀ (by norm_num)]; nlinarith)]
    have hx : x * 255 / 100 * 100 / 255 = x := by
      field_simp
    rw [hx]
    simp
  · intro x h0 h1
    rw [scale_to_100_unclamped x h0 h1,
      scale_to_255_unclamped _ (by positivity)
        (by rw [div_le_iff₀ (by norm_num)]; nlinarith)]
    have hx : x * 100 / 255 * 255 / 100 = x := by
      field_simp
    rw [hx]
    simp

/-- C7, witness: the monotonicity and round-trip statements applied at
concrete inputs. -/
theorem c7_scale_monotone_roundtrip_witness :
    scale_to_255 3 ≤ scale_to_255 5 ∧
    scale_to_100 3 ≤ scale_to_100 5 ∧
    |scale_to_100 (scale_to_255 50) - 50| ≤ 1 ∧
    |scale_to_255 (scale_to_100 51) - 51| ≤ 1 :=
  ⟨c7_scale_monotone_roundtrip.1 3 5 (by norm_num),
   c7_scale_monotone_roundtrip.2.1 3 5 (by norm_num),
   c7_scale_monotone_roundtrip.2.2.1 50 (by norm_num) (by norm_num),
   c7_scale_monotone_roundtrip.2.2.2 51 (by norm_num) (by norm_num)⟩

/-- C8, counterexample to the claim as stated: an unmatched thermostat
compressor status code (Verdichter_Status 7 with Verdichteranforderung 2,
no fault, main switch on) projects to the named state CURRENT_HVAC_IDLE,
not to an explicit Unknown marker such as None. -/
theorem c8_idle_not_unknown_counterexample :
    (HtRestThermostat.async_update HtRestThermostat.initial
        (.parsed [] ⟨22, false, true, 7, 2⟩)).current_hvac_action
      = some HtRestThermostat.HvacAction.idle ∧
    some HtRestThermostat.HvacAction.idle ≠ (none : Option HtRestThermostat.HvacAction) := by
  refine ⟨rfl, by decide⟩

/-- C8 (amended): a fan speed-register value outside the lookup table
projects to None without an exception (the projected speed is always the
VALUE_TO_SPEED lookup, which is None off the table); the thermostat never
projects an Unknown marker: any parsed document whose fields match no
specific pattern is projected to CURRENT_HVAC_IDLE as the catch-all. -/
theorem c8_unknown_value_projection :
    (∀ a s b r, (ModbusFan.update ⟨some a⟩ s (.ok r) (.ok b)).speed =
      ModbusFan.VALUE_TO_SPEED (decode_16bit_int r)) ∧
    (∀ v : Int, v ≠ 0 → v ≠ 1 → v ≠ 2 → ModbusFan.VALUE_TO_SPEED v = none) ∧
    (∀ f : HtRestThermostat.Fields, f.stoerung = false → f.hauptschalter = true →
      ¬(f.verdichter_status = 9 ∧ f.verdichteranforderung = 2) →
      HtRestThermostat.project_hvac_action f = .idle) ∧
    (∀ s attrs f, (HtRestThermostat.async_update s (.parsed attrs f)).current_hvac_action =
      some (HtRestThermostat.project_hvac_action f)) := by
  refine ⟨fun a s b r => rfl, ?_, ?_, fun s attrs f => rfl⟩
  · intro v h0 h1 h2
    simp [ModbusFan.VALUE_TO_SPEED, h0, h1, h2]
  · intro f hs hh hne
    simp only [HtRestThermostat.project_hvac_action, hs, hh]
    simp [hne]

/-- C8, witness: the amended statement applied at the concrete unmatched
fan value 5 and an unmatched thermostat field combination. -/
theorem c8_unknown_value_projection_witness :
    ModbusFan.VALUE_TO_SPEED 5 = none ∧
    HtRestThermostat.project_hvac_action ⟨22, false, true, 7, 2⟩ =
      HtRestThermostat.HvacAction.idle :=
  ⟨c8_unknown_value_projection.2.1 5 (by decide) (by decide) (by decide),
   c8_unknown_value_projection.2.2.1 ⟨22, false, true, 7, 2⟩ rfl rfl (by decide)⟩

/-- C9: when ModbusFan.turn_on is called with a speed name and the
speed-register write raises a connection failure, the state coil is never
written in that call and the availability flag is false afterwards; and in
every turn_on call with a speed argument, a coil write is issued only when
the entity is available after the set_speed step. -/
theorem c9_speed_failure_gates_coil :
    (∀ s sp v w2, ModbusFan.SPEED_TO_VALUE sp = some v →
      (ModbusFan.turn_on s (some sp) .conn w2).1.available = false ∧
      ∀ b, ModbusFan.Write.coil b ∉ (ModbusFan.turn_on s (some sp) .conn w2).2) ∧
    (∀ s sp w1 w2 b, ModbusFan.Write.coil b ∈ (ModbusFan.turn_on s (some sp) w1 w2).2 →
      (ModbusFan.set_speed s sp w1).1.available = true) := by
  constructor
  · intro s sp v w2 h
    simp [ModbusFan.turn_on, ModbusFan.set_speed, h]
  · intro s sp w1 w2 b h
    rcases hv : ModbusFan.SPEED_TO_VALUE sp with _ | v <;> rcases w1 <;>
      rcases hA : s.available <;> rcases w2 <;>
      simp_all [ModbusFan.turn_on, ModbusFan.set_speed, ModbusFan.write_coil]

/-- C9, witness: the first part applied at a concrete call, turning on the
fan at speed low from the initial state while the speed write fails. -/
theorem c9_speed_failure_gates_coil_witness :
    (ModbusFan.turn_on ModbusFan.initial (some "low") .conn .ok).1.available = false ∧
    ∀ b, ModbusFan.Write.coil b ∉ (ModbusFan.turn_on ModbusFan.initial (some "low") .conn .ok).2 :=
  c9_speed_failure_gates_coil.1 ModbusFan.initial "low" 0 .ok rfl

/-- C10: calling set_cover_position while the cached tilt is still None
(respectively set_cover_tilt_position while the cached position is None)
raises a TypeError out of scale_to_255 and issues no register write. -/
theorem c10_none_cached_value_type_error :
    (∀ (s : ModbusCover.State) (p : ℚ) (w : WriteOutcome),
      s.cover_tilt_position = none →
      ModbusCover.set_cover_position s p w = (.error .typeError, [])) ∧
    (∀ (s : ModbusCover.State) (t : ℚ) (w : WriteOutcome),
      s.cover_position = none →
      ModbusCover.set_cover_tilt_position s t w = (.error .typeError, [])) := by
  constructor
  · intro s p w h
    obtain ⟨st, cp, ct, av⟩ := s
    simp only at h
    subst h
    rfl
  · intro s t w h
    obtain ⟨st, cp, ct, av⟩ := s
    simp only at h
    subst h
    rfl

/-- C10, witness: the statement applied at the initial state, whose cached
tilt and position are both None. -/
theorem c10_none_cached_value_type_error_witness :
    ModbusCover.set_cover_position ModbusCover.initial 50 .ok = (.error .typeError, []) ∧
    ModbusCover.set_cover_tilt_position ModbusCover.initial 60 .ok = (.error .typeError, []) :=
  ⟨c10_none_cached_value_type_error.1 ModbusCover.initial 50 .ok rfl,
   c10_none_cached_value_type_error.2 ModbusCover.initial 60 .ok rfl⟩
